import Mathlib

/-!
# Verification of the VAD / pause-segmentation engine

A shallow embedding of the voice-activity-detection engine of this
repository, with the main engine taken from
`nextjs-voice/lib/voice-capture.ts` (the plain-JS copy `voice-capture.js`
is line-for-line the same logic; its extra `updateConfig` method is
embedded here as well), and the debouncing / floor-adapting variant taken
from the `RealtimeKitClient.analyzeAudio` implementation (`unnamed/part_006`).

Numbers are embedded as rationals.  The engine's VAD logic only ever
compares energies and timestamps with `>`, `<`, `≥` and mixes them
affinely, so exact rational arithmetic mirrors the source except at the
float corner cases (NaN from a zero-length frame), which are discussed at
the theorems that touch them.  Event timestamps that the source takes
from `Date.now()` are modelled by the same clock value `now` that drives
the logic; no claim inspects those payload values.
-/

namespace VoiceVAD

/-- The VAD state machine states of `voice-capture.ts`
(`'idle' | 'calibrating' | 'silence' | 'speaking'`). -/
inductive VCState
  | idle
  | calibrating
  | silence
  | speaking
deriving DecidableEq, Repr

/-- The resolved configuration of `VoiceCapture` (the `this.config` object
built in the constructor). -/
structure VCConfig where
  silenceThreshold : ℚ
  noiseMargin : ℚ
  hysteresisRatio : ℚ
  pauseDuration : ℚ
  speechMinDuration : ℚ
  calibrationDuration : ℚ
  analysisInterval : ℚ
  smoothingFactor : ℚ
deriving DecidableEq, Repr

/-- The optional configuration object passed to the constructor and to
`updateConfig` (`VoiceCaptureConfig`); `none` stands for an absent key. -/
structure ConfigPatch where
  silenceThreshold : Option ℚ := none
  noiseMargin : Option ℚ := none
  hysteresisRatio : Option ℚ := none
  pauseDuration : Option ℚ := none
  speechMinDuration : Option ℚ := none
  calibrationDuration : Option ℚ := none
  analysisInterval : Option ℚ := none
  smoothingFactor : Option ℚ := none
deriving DecidableEq, Repr

/-- The callback firings of one tick.  `energyUpdate` carries only the two
leading arguments of `onEnergyUpdate`; the detail record repeats engine
fields that the state already exposes. -/
inductive VCEvent
  | speechStart (timestamp energy silenceDuration : ℚ)
  | pauseDetected (segmentCount : ℕ) (silenceDuration timestamp noiseFloor threshold : ℚ)
  | energyUpdate (energy : ℚ) (isSpeaking : Bool)
deriving DecidableEq, Repr

/-- The resource releases `stop()` can perform, in source order. -/
inductive ReleaseAction
  | cancelFrame
  | disconnectSource
  | stopTracks
  | closeContext
deriving DecidableEq, Repr

/-- The mutable fields of a `VoiceCapture` instance.  Audio-graph objects
are modelled by presence flags: `audioContextOpen` is true while
`this.audioContext` is non-null and not closed. -/
structure Engine where
  config : VCConfig
  sourceNode : Bool
  analyserNode : Bool
  timeDomainData : Bool
  audioContextOpen : Bool
  externalMediaStream : Bool
  ownsMediaStream : Bool
  noiseFloor : ℚ
  isCalibrating : Bool
  calibrationSamples : List ℚ
  effectiveThreshold : ℚ
  speechThreshold : ℚ
  state : VCState
  stateStartTime : ℚ
  smoothedEnergy : ℚ
  peakEnergy : ℚ
  silenceStartTime : Option ℚ
  lastSpeechTime : Option ℚ
  pauseTriggered : Bool
  segmentCount : ℕ
  lastAnalysisTime : ℚ
  animationFrameId : Bool
  isRunning : Bool
deriving DecidableEq, Repr

/-- Default resolution of the constructor's `config.x ?? defaultX` lines. -/
def resolveConfig (c : ConfigPatch) : VCConfig where
  silenceThreshold := c.silenceThreshold.getD (15/1000)
  noiseMargin := c.noiseMargin.getD (5/2)
  hysteresisRatio := c.hysteresisRatio.getD (13/10)
  pauseDuration := c.pauseDuration.getD 3000
  speechMinDuration := c.speechMinDuration.getD 300
  calibrationDuration := c.calibrationDuration.getD 500
  analysisInterval := c.analysisInterval.getD 50
  smoothingFactor := c.smoothingFactor.getD (7/10)

/-- The `VoiceCapture` constructor: resolves the config and seeds
`noiseFloor` and both thresholds from `silenceThreshold`.  The source has
no validation path: every configuration is accepted. -/
def VoiceCapture.new (c : ConfigPatch) : Engine :=
  let cfg := resolveConfig c
  { config := cfg
    sourceNode := false
    analyserNode := false
    timeDomainData := false
    audioContextOpen := false
    externalMediaStream := false
    ownsMediaStream := false
    noiseFloor := cfg.silenceThreshold
    isCalibrating := false
    calibrationSamples := []
    effectiveThreshold := cfg.silenceThreshold
    speechThreshold := cfg.silenceThreshold * cfg.hysteresisRatio
    state := .idle
    stateStartTime := 0
    smoothedEnergy := 0
    peakEnergy := 0
    silenceStartTime := none
    lastSpeechTime := none
    pauseTriggered := false
    segmentCount := 0
    lastAnalysisTime := 0
    animationFrameId := false
    isRunning := false }

/-- `initializeState` from the source: run-state reset done by
`startWithMediaStream`. -/
def initRunState (s : Engine) : Engine :=
  { s with isRunning := true, smoothedEnergy := 0, peakEnergy := 0,
           silenceStartTime := none, lastSpeechTime := none,
           pauseTriggered := false, segmentCount := 0 }

/-- `startCalibration`. -/
def startCalibration (s : Engine) (now : ℚ) : Engine :=
  { s with state := .calibrating, stateStartTime := now,
           calibrationSamples := [], isCalibrating := true }

/-- `buildAudioGraph`: source node, analyser and buffer come into being. -/
def buildAudioGraph (s : Engine) : Engine :=
  { s with sourceNode := true, analyserNode := true, timeDomainData := true }

/-- `startWithMediaStream` on the success path (a stream with an audio
track was supplied): records the external stream as not owned, opens the
audio context, builds the graph, resets run state, starts calibration and
schedules the analysis loop.  A second call while running returns
unchanged. -/
def startWithMediaStream (s : Engine) (now : ℚ) : Engine :=
  if s.isRunning then s
  else
    let s := { s with externalMediaStream := true, ownsMediaStream := false,
                      audioContextOpen := true }
    let s := buildAudioGraph s
    let s := initRunState s
    let s := startCalibration s now
    { s with animationFrameId := true }

/-- `finishCalibration`: with at least one sample, the floor becomes the
median of the sorted samples clamped below by `0.001`, and both thresholds
are recomputed from it; with no samples, floor and thresholds are left
untouched.  Either way the state becomes `silence`. -/
def finishCalibration (s : Engine) (now : ℚ) : Engine :=
  let s := { s with isCalibrating := false }
  let s :=
    if s.calibrationSamples.length > 0 then
      let sorted := s.calibrationSamples.insertionSort (· ≤ ·)
      let median := sorted.getD (sorted.length / 2) 0
      let nf := max median (1/1000)
      let eff := max (nf * s.config.noiseMargin) s.config.silenceThreshold
      { s with noiseFloor := nf, effectiveThreshold := eff,
               speechThreshold := eff * s.config.hysteresisRatio }
    else s
  { s with state := .silence, stateStartTime := now, calibrationSamples := [] }

/-- `computeRMS`.  The real square root is replaced by the rational
square-root approximation; every evaluation in this development is at a
perfect square (the zero of an empty frame), where it is exact.  Rational
division makes the empty frame's `0 / 0` equal `0` where the source's
float division yields NaN; the theorems that use this function only rely
on facts that agree under both readings (the comparison `NaN > t` is
false, as is `0 > t` for the positive thresholds used). -/
def computeRMS (samples : List ℚ) : ℚ :=
  Rat.sqrt ((samples.map fun x => x * x).sum / samples.length)

/-- `smoothEnergy`: exponential moving average plus peak decay. -/
def smoothEnergy (s : Engine) (rawEnergy : ℚ) : Engine :=
  { s with
    smoothedEnergy := s.config.smoothingFactor * s.smoothedEnergy
      + (1 - s.config.smoothingFactor) * rawEnergy,
    peakEnergy := max (s.peakEnergy * (995/1000)) rawEnergy }

/-- The `silenceDuration` payload of `onSpeechStart`: the source guards
with JS truthiness (`this.silenceStartTime ? ... : 0`), so a recorded
silence start of exactly `0` also yields `0`. -/
def silenceDurationPayload (sst : Option ℚ) (now : ℚ) : ℚ :=
  match sst with
  | some t => if t = 0 then 0 else (now - t) / 1000
  | none => 0

/-- `checkPause`: fires the pause callback once per silence episode, after
`pauseDuration` of continuous silence, and only once speech has ever been
heard. -/
def checkPause (s : Engine) (now : ℚ) : Engine × List VCEvent :=
  if s.pauseTriggered then (s, [])
  else
    match s.lastSpeechTime with
    | none => (s, [])
    | some _ =>
      match s.silenceStartTime with
      | none => (s, [])
      | some sst =>
        if now - sst ≥ s.config.pauseDuration then
          ({ s with pauseTriggered := true, segmentCount := s.segmentCount + 1 },
           [VCEvent.pauseDetected (s.segmentCount + 1) ((now - sst) / 1000) now
              s.noiseFloor s.effectiveThreshold])
        else (s, [])

/-- `processVAD`, split on `wasSpeaking` exactly as the source's
`isSpeaking = wasSpeaking ? energy > effectiveThreshold : energy >
speechThreshold` conditional does. -/
def processVAD (s : Engine) (energy now : ℚ) : Engine × List VCEvent :=
  if s.state = VCState.speaking then
    if energy > s.effectiveThreshold then
      ({ s with lastSpeechTime := some now, silenceStartTime := none }, [])
    else
      checkPause { s with state := .silence, stateStartTime := now,
                          silenceStartTime := some now } now
  else
    if energy > s.speechThreshold then
      ({ s with state := .speaking, stateStartTime := now, pauseTriggered := false,
                lastSpeechTime := some now, silenceStartTime := none },
       [VCEvent.speechStart now energy (silenceDurationPayload s.silenceStartTime now)])
    else
      checkPause
        (if s.silenceStartTime = none then { s with silenceStartTime := some now } else s)
        now

/-- The body of the `analyze` closure once its three early returns have
been passed: smooth the energy, then either collect a calibration sample
(finishing calibration when the window has elapsed) or run the VAD, and
fire `onEnergyUpdate`. -/
def tickBody (s : Engine) (rawEnergy now : ℚ) : Engine × List VCEvent :=
  let s := smoothEnergy s rawEnergy
  let energy := s.smoothedEnergy
  let r :=
    if s.state = VCState.calibrating then
      let s := { s with calibrationSamples := s.calibrationSamples ++ [rawEnergy] }
      (if now - s.stateStartTime ≥ s.config.calibrationDuration then
         finishCalibration s now
       else s, ([] : List VCEvent))
    else processVAD s energy now
  (r.1, r.2 ++ [VCEvent.energyUpdate energy (decide (r.1.state = VCState.speaking))])

/-- One invocation of the `analyze` closure of `startAnalysisLoop`, with
the frame already reduced to its raw RMS energy.  `timestamp` is the
animation-frame time used by the throttle; `now` is the `performance.now()`
taken after analysis. -/
def tickE (s : Engine) (rawEnergy timestamp now : ℚ) : Engine × List VCEvent :=
  if !s.isRunning then (s, [])
  else if timestamp - s.lastAnalysisTime < s.config.analysisInterval then (s, [])
  else
    let s := { s with lastAnalysisTime := timestamp }
    if !(s.analyserNode && s.timeDomainData) then (s, [])
    else tickBody s rawEnergy now

/-- A tick on a whole frame: the analyser buffer is read and reduced by
`computeRMS`, then analysed.  The source performs no validation of the
frame whatsoever. -/
def tickFrame (s : Engine) (frame : List ℚ) (timestamp now : ℚ) : Engine × List VCEvent :=
  tickE s (computeRMS frame) timestamp now

/-- The post-`stop()` field values.  Every release is guarded by the
presence flag of the resource it releases, and all flags are cleared. -/
def stopState (s : Engine) : Engine :=
  { s with isRunning := false, state := .idle, animationFrameId := false,
           sourceNode := false, externalMediaStream := false, ownsMediaStream := false,
           audioContextOpen := false, analyserNode := false, timeDomainData := false }

/-- The releases `stop()` performs, in source order; track stopping is
guarded by `_ownsMediaStream && _externalMediaStream`. -/
def stopActions (s : Engine) : List ReleaseAction :=
  (if s.animationFrameId then [ReleaseAction.cancelFrame] else [])
    ++ (if s.sourceNode then [ReleaseAction.disconnectSource] else [])
    ++ (if s.ownsMediaStream && s.externalMediaStream then [ReleaseAction.stopTracks] else [])
    ++ (if s.audioContextOpen then [ReleaseAction.closeContext] else [])

/-- `stop()`: each guard in the source reads the field before any write to
it, so the emitted releases and the final state factor as below. -/
def stop (s : Engine) : Engine × List ReleaseAction :=
  (stopState s, stopActions s)

/-- `recalibrate()`: a no-op unless running, otherwise `startCalibration`. -/
def recalibrate (s : Engine) (now : ℚ) : Engine :=
  if s.isRunning then startCalibration s now else s

/-- JS truthiness of an optional numeric config entry
(`newConfig.noiseMargin || newConfig.silenceThreshold`): present and
non-zero. -/
def truthyEntry : Option ℚ → Bool
  | some q => decide (q ≠ 0)
  | none => false

/-- `updateConfig` from `voice-capture.js`: merge the supplied keys into
the config (`Object.assign`), and recompute both thresholds only when a
truthy `noiseMargin` or `silenceThreshold` was supplied. -/
def updateConfig (s : Engine) (c : ConfigPatch) : Engine :=
  let cfg : VCConfig :=
    { silenceThreshold := c.silenceThreshold.getD s.config.silenceThreshold
      noiseMargin := c.noiseMargin.getD s.config.noiseMargin
      hysteresisRatio := c.hysteresisRatio.getD s.config.hysteresisRatio
      pauseDuration := c.pauseDuration.getD s.config.pauseDuration
      speechMinDuration := c.speechMinDuration.getD s.config.speechMinDuration
      calibrationDuration := c.calibrationDuration.getD s.config.calibrationDuration
      analysisInterval := c.analysisInterval.getD s.config.analysisInterval
      smoothingFactor := c.smoothingFactor.getD s.config.smoothingFactor }
  let s := { s with config := cfg }
  if truthyEntry c.noiseMargin || truthyEntry c.silenceThreshold then
    let eff := max (s.noiseFloor * cfg.noiseMargin) cfg.silenceThreshold
    { s with effectiveThreshold := eff, speechThreshold := eff * cfg.hysteresisRatio }
  else s

/-- One analysis-loop invocation's inputs: raw RMS energy, the
animation-frame timestamp, and the clock value. -/
structure Tick where
  raw : ℚ
  timestamp : ℚ
  now : ℚ
deriving DecidableEq, Repr

/-- Run a sequence of ticks, collecting all events in order. -/
def runTicks : Engine → List Tick → Engine × List VCEvent
  | s, [] => (s, [])
  | s, t :: rest =>
    let r := tickE s t.raw t.timestamp t.now
    let r2 := runTicks r.1 rest
    (r2.1, r.2 ++ r2.2)

/-- All engine states visited along a tick sequence, the starting state
included. -/
def traceStates : Engine → List Tick → List Engine
  | s, [] => [s]
  | s, t :: rest => s :: traceStates (tickE s t.raw t.timestamp t.now).1 rest

/-- Recognizer for pause events. -/
def VCEvent.isPause : VCEvent → Bool
  | .pauseDetected .. => true
  | _ => false

/-- Recognizer for speech-start events. -/
def VCEvent.isSpeechStart : VCEvent → Bool
  | .speechStart .. => true
  | _ => false

/-- Number of `onPauseDetected` firings in an event list. -/
def pauseCount (evs : List VCEvent) : ℕ := evs.countP VCEvent.isPause

/-- Number of `onSpeechStart` firings in an event list. -/
def speechCount (evs : List VCEvent) : ℕ := evs.countP VCEvent.isSpeechStart

/-- The public operations that can hit a live engine between frames. -/
inductive Op
  | tick (t : Tick)
  | recal (now : ℚ)
  | halt
  | update (c : ConfigPatch)
deriving DecidableEq, Repr

/-- Apply one public operation. -/
def applyOp (s : Engine) : Op → Engine
  | .tick t => (tickE s t.raw t.timestamp t.now).1
  | .recal now => recalibrate s now
  | .halt => (stop s).1
  | .update c => updateConfig s c

/-- Apply a sequence of public operations. -/
def runOps : Engine → List Op → Engine
  | s, [] => s
  | s, o :: rest => runOps (applyOp s o) rest

end VoiceVAD

namespace RTK6

/-! ## The `RealtimeKitClient` variant (`unnamed/part_006`)

The same VAD idea with three differences that matter to the claims: a
minimum-speech-duration debounce before `onSpeechStart`, a p90 (not
median) calibration percentile clamped at `0.008`, and a slow adaptive
noise-floor update during deep silence. -/

/-- The callback firings of one `analyzeAudio` invocation. -/
inductive Event
  | speechStart
  | pauseDetected (segmentCount : ℕ) (silenceDuration timestamp : ℚ)
deriving DecidableEq, Repr

/-- The VAD-relevant fields of a `RealtimeKitClient` instance. -/
structure Client where
  pauseDuration : ℚ
  calibrationDuration : ℚ
  isSpeaking : Bool
  isCalibrating : Bool
  currentEnergy : ℚ
  smoothedEnergy : ℚ
  noiseFloor : ℚ
  segmentCount : ℕ
  calibrationStartTime : ℚ
  silenceStartTime : ℚ
  speechStartTime : ℚ
  calibrationSamples : List ℚ
deriving DecidableEq, Repr

/-- The readonly class constants. -/
def smoothingFactor : ℚ := 3/10

/-- Hysteresis ratio constant (2.5). -/
def hysteresisRatio : ℚ := 5/2

/-- Debounce constant (500 ms). -/
def minSpeechDuration : ℚ := 500

/-- The constructor's field initializers (`pauseDuration ?? 2000`,
`calibrationDuration ?? 1000`, and the declared field defaults). -/
def newClient (pauseDur calDur : Option ℚ) : Client where
  pauseDuration := pauseDur.getD 2000
  calibrationDuration := calDur.getD 1000
  isSpeaking := false
  isCalibrating := true
  currentEnergy := 0
  smoothedEnergy := 0
  noiseFloor := 1/100
  segmentCount := 0
  calibrationStartTime := 0
  silenceStartTime := 0
  speechStartTime := 0
  calibrationSamples := []

/-- The timing initialization done by `setupAudioAnalysis` before the
analysis loop starts. -/
def startAnalysis (c : Client) (now : ℚ) : Client :=
  { c with calibrationStartTime := now, silenceStartTime := now,
           speechStartTime := 0, calibrationSamples := [], isCalibrating := true }

/-- The calibration-finish floor of `analyzeAudio`: the sample at the p90
index of the ascending sort, clamped below by `0.008`. -/
def calibrateFloor (samples : List ℚ) : ℚ :=
  let sorted := samples.insertionSort (· ≤ ·)
  max (sorted.getD (sorted.length * 9 / 10) 0) (1/125)

/-- One `analyzeAudio` invocation, with the frame already reduced to its
raw RMS energy (the guard on the analyser node's presence is dropped: the
loop only runs after `setupAudioAnalysis` built it). -/
def analyzeAudio (c : Client) (rawEnergy now : ℚ) : Client × List Event :=
  let s := smoothingFactor * rawEnergy + (1 - smoothingFactor) * c.smoothedEnergy
  let c := { c with smoothedEnergy := s, currentEnergy := s }
  if c.isCalibrating then
    let c := { c with calibrationSamples := c.calibrationSamples ++ [rawEnergy] }
    if now - c.calibrationStartTime ≥ c.calibrationDuration then
      let c :=
        if c.calibrationSamples.length > 0 then
          { c with noiseFloor := calibrateFloor c.calibrationSamples }
        else c
      ({ c with isCalibrating := false }, [])
    else (c, [])
  else
    let speechThreshold := c.noiseFloor * hysteresisRatio
    let silenceThreshold := c.noiseFloor * (11/10)
    if !c.isSpeaking && decide (s > speechThreshold) then
      let c := if c.speechStartTime = 0 then { c with speechStartTime := now } else c
      if now - c.speechStartTime ≥ minSpeechDuration then
        ({ c with isSpeaking := true, silenceStartTime := 0 }, [Event.speechStart])
      else (c, [])
    else if c.isSpeaking && decide (s < silenceThreshold) then
      let c := if c.silenceStartTime = 0 then { c with silenceStartTime := now } else c
      let silenceDuration := now - c.silenceStartTime
      if silenceDuration ≥ c.pauseDuration then
        ({ c with isSpeaking := false, segmentCount := c.segmentCount + 1,
                  speechStartTime := 0, silenceStartTime := 0 },
         [Event.pauseDetected (c.segmentCount + 1) silenceDuration now])
      else (c, [])
    else if decide (s > silenceThreshold) then
      (if c.isSpeaking then { c with silenceStartTime := 0 } else c, [])
    else
      let c := { c with speechStartTime := 0 }
      (if s < c.noiseFloor * (3/2) then
         { c with noiseFloor := (998/1000) * c.noiseFloor + (2/1000) * s }
       else c, [])

/-- Run a sequence of `(rawEnergy, now)` inputs through `analyzeAudio`. -/
def runClient : Client → List (ℚ × ℚ) → Client × List Event
  | c, [] => (c, [])
  | c, (raw, now) :: rest =>
    let r := analyzeAudio c raw now
    let r2 := runClient r.1 rest
    (r2.1, r.2 ++ r2.2)

/-- All client states visited along an input sequence, the starting state
included. -/
def traceClients : Client → List (ℚ × ℚ) → List Client
  | c, [] => [c]
  | c, (raw, now) :: rest => c :: traceClients (analyzeAudio c raw now).1 rest

/-- The hypothesis of the debounce property, checked along the run: every
input of the burst keeps the updated smoothed energy strictly above the
speech threshold, and stays within `minSpeechDuration` of the burst's
first tick (against which the source's `speechStartTime` sentinel
re-bases). -/
def burstShort : Client → List (ℚ × ℚ) → Bool
  | _, [] => true
  | c, (raw, now) :: rest =>
    let s := smoothingFactor * raw + (1 - smoothingFactor) * c.smoothedEnergy
    decide (s > c.noiseFloor * hysteresisRatio)
      && decide (now - (if c.speechStartTime = 0 then now else c.speechStartTime)
                   < minSpeechDuration)
      && burstShort (analyzeAudio c raw now).1 rest

end RTK6

namespace VoiceVAD

/-! ## Concrete engines used by witnesses and counterexamples -/

/-- An engine built with an empty config: every default applies. -/
def defaultEngine : Engine := VoiceCapture.new {}

/-- The default engine right after `startWithMediaStream` at time `0`. -/
def startedEngine : Engine := startWithMediaStream defaultEngine 0

/-- The started engine after one calibration-closing tick of raw energy
`0.01`: noise floor `0.01`, silence threshold `0.025`, speech threshold
`0.0325`, state `silence`. -/
def calibratedEngine : Engine := (tickE startedEngine (1/100) 50 500).1

/-- A started engine whose smoothing factor is `0`, so the smoothed energy
equals each tick's raw energy; convenient for scripted runs. -/
def zeroSmoothingEngine : Engine :=
  startWithMediaStream (VoiceCapture.new { smoothingFactor := some 0 }) 0

/-- A calibrating engine holding two unsorted calibration samples. -/
def calSampleEngine : Engine := { startedEngine with calibrationSamples := [2, 1] }

/-- A scripted prefix for the zero-smoothing engine: calibrate on raw
`0.01`, one loud tick entering `speaking`, one quiet tick returning to
`silence` — the start of a silence episode. -/
def episodePrefixTicks : List Tick := [⟨1/100, 50, 500⟩, ⟨1, 100, 550⟩, ⟨0, 150, 600⟩]

/-- The zero-smoothing engine at the start of a silence episode, with one
confirmed speech segment behind it. -/
def episodeStart : Engine := (runTicks zeroSmoothingEngine episodePrefixTicks).1

/-- Two quiet ticks inside the silence episode: the first crosses the
3000 ms pause duration, the second continues far beyond it. -/
def episodeTicks : List Tick := [⟨0, 200, 3600⟩, ⟨0, 250, 99999⟩]

/-- Calibration tick plus a single loud tick: a burst above the speech
threshold lasting 0 ms, far below the 300 ms `speechMinDuration`. -/
def shortBurstTicks : List Tick := [⟨1/100, 50, 500⟩, ⟨1, 100, 550⟩]

/-- One calibration-closing tick and one far-future quiet tick. -/
def longSilenceTicks : List Tick := [⟨1/100, 50, 500⟩, ⟨0, 100, 1000000⟩]

/-- Whether a config patch keeps the hysteresis bounds: any supplied
`hysteresisRatio` exceeds `1` and any supplied `silenceThreshold` is
positive. -/
def patchOK (c : ConfigPatch) : Bool :=
  (match c.hysteresisRatio with
   | none => true
   | some r => decide (1 < r)) &&
  (match c.silenceThreshold with
   | none => true
   | some t => decide (0 < t))

/-- Whether an operation keeps the hysteresis bounds. -/
def opOK : Op → Bool
  | .update c => patchOK c
  | _ => true

/-- A sample operation sequence: one tick, then a runtime config update
that triggers a threshold recomputation. -/
def sampleOps : List Op :=
  [Op.tick ⟨1/100, 50, 500⟩, Op.update { noiseMargin := some 3 }]

/-- The part_006 client right after `setupAudioAnalysis` at time `0`. -/
def rtkStarted : RTK6.Client := RTK6.startAnalysis (RTK6.newClient none none) 0

/-- The part_006 client after its calibration window closed on one raw
sample `0.01`: noise floor `0.01`, no longer calibrating. -/
def rtkCalibrated : RTK6.Client := (RTK6.runClient rtkStarted [(1/100, 1000)]).1

/-- A two-tick burst above the part_006 speech threshold spanning 300 ms,
below the 500 ms `minSpeechDuration`. -/
def rtkBurst : List (ℚ × ℚ) := [(1, 1100), (1, 1400)]

/-- The zero-smoothing engine caught mid-`speaking` (calibration tick plus
one loud tick). -/
def speakingEngine : Engine := (runTicks zeroSmoothingEngine shortBurstTicks).1

/-- Two ticks whose clock stays within the 500 ms calibration window
that a `recalibrate` at time 600 opens. -/
def recalTicks : List Tick := [⟨0, 150, 700⟩, ⟨1, 200, 900⟩]

end VoiceVAD

namespace VoiceVAD

/-! ## C5: calibration finishing with zero samples -/

/-- C5 counterexample: finishing calibration with zero collected samples
does not set the noise floor to the code's minimum floor `0.001` — it
leaves the floor at its prior value (here the default `silenceThreshold`,
`0.015`) — though the state does transition to `silence`. -/
theorem c5_zero_samples_counterexample :
    startedEngine.calibrationSamples = [] ∧
    (finishCalibration startedEngine 500).noiseFloor = 15/1000 ∧
    (finishCalibration startedEngine 500).noiseFloor ≠ 1/1000 ∧
    (finishCalibration startedEngine 500).state = VCState.silence := by with_unfolding_all decide

/-- C5 (amended): with zero calibration samples, `finishCalibration`
leaves the noise floor and both thresholds at their prior values and still
transitions the state machine to `silence`. -/
theorem c5_zero_samples_amended (s : Engine) (now : ℚ)
    (h : s.calibrationSamples = []) :
    (finishCalibration s now).noiseFloor = s.noiseFloor ∧
    (finishCalibration s now).effectiveThreshold = s.effectiveThreshold ∧
    (finishCalibration s now).speechThreshold = s.speechThreshold ∧
    (finishCalibration s now).state = VCState.silence ∧
    (finishCalibration s now).isCalibrating = false := by
  simp [finishCalibration, h]

/-- C5 witness: the amended statement evaluated on the freshly started
engine, whose calibration sample list is empty. -/
theorem c5_zero_samples_witness :
    startedEngine.calibrationSamples = [] ∧
    ((finishCalibration startedEngine 500).noiseFloor = startedEngine.noiseFloor ∧
     (finishCalibration startedEngine 500).effectiveThreshold =
       startedEngine.effectiveThreshold ∧
     (finishCalibration startedEngine 500).speechThreshold =
       startedEngine.speechThreshold ∧
     (finishCalibration startedEngine 500).state = VCState.silence ∧
     (finishCalibration startedEngine 500).isCalibrating = false) :=
  ⟨by with_unfolding_all decide, c5_zero_samples_amended startedEngine 500 (by with_unfolding_all decide)⟩

/-! ## C6: calibration finishing with samples -/

/-- C6: with at least one sample, `finishCalibration` sets the noise floor
to `max(candidate, 0.001)` where the candidate is the element at index
`⌊n/2⌋` of the samples sorted ascending, then recomputes the silence
threshold as `max(noiseFloor·noiseMargin, silenceThreshold)` and the
speech threshold as that times `hysteresisRatio`; the part_006 variant
takes the element at index `⌊0.9·n⌋` clamped at `0.008` instead. -/
theorem c6_calibration_median (s : Engine) (now : ℚ)
    (h : s.calibrationSamples ≠ []) :
    (∃ sorted : List ℚ,
        s.calibrationSamples.Perm sorted ∧ sorted.Sorted (· ≤ ·) ∧
        (finishCalibration s now).noiseFloor
          = max (sorted.getD (sorted.length / 2) 0) (1/1000) ∧
        (finishCalibration s now).effectiveThreshold
          = max ((finishCalibration s now).noiseFloor * s.config.noiseMargin)
              s.config.silenceThreshold ∧
        (finishCalibration s now).speechThreshold
          = (finishCalibration s now).effectiveThreshold * s.config.hysteresisRatio) ∧
    ∀ samples : List ℚ, ∃ sorted : List ℚ,
        samples.Perm sorted ∧ sorted.Sorted (· ≤ ·) ∧
        RTK6.calibrateFloor samples
          = max (sorted.getD (sorted.length * 9 / 10) 0) (1/125) := by
  have hl : 0 < s.calibrationSamples.length := List.length_pos.mpr h
  constructor
  · refine ⟨s.calibrationSamples.insertionSort (· ≤ ·),
      (List.perm_insertionSort _ _).symm, List.sorted_insertionSort _ _, ?_, ?_, ?_⟩
    · simp [finishCalibration, hl]
    · simp [finishCalibration, hl]
    · simp [finishCalibration, hl]
  · intro samples
    exact ⟨samples.insertionSort (· ≤ ·),
      (List.perm_insertionSort _ _).symm, List.sorted_insertionSort _ _, rfl⟩

/-- C6 witness: the statement evaluated on an engine holding the samples
`[2, 1]`. -/
theorem c6_calibration_median_witness :
    calSampleEngine.calibrationSamples ≠ [] ∧
    ((∃ sorted : List ℚ,
        calSampleEngine.calibrationSamples.Perm sorted ∧ sorted.Sorted (· ≤ ·) ∧
        (finishCalibration calSampleEngine 500).noiseFloor
          = max (sorted.getD (sorted.length / 2) 0) (1/1000) ∧
        (finishCalibration calSampleEngine 500).effectiveThreshold
          = max ((finishCalibration calSampleEngine 500).noiseFloor
                * calSampleEngine.config.noiseMargin)
              calSampleEngine.config.silenceThreshold ∧
        (finishCalibration calSampleEngine 500).speechThreshold
          = (finishCalibration calSampleEngine 500).effectiveThreshold
              * calSampleEngine.config.hysteresisRatio) ∧
     ∀ samples : List ℚ, ∃ sorted : List ℚ,
        samples.Perm sorted ∧ sorted.Sorted (· ≤ ·) ∧
        RTK6.calibrateFloor samples
          = max (sorted.getD (sorted.length * 9 / 10) 0) (1/125)) :=
  ⟨by with_unfolding_all decide, c6_calibration_median calSampleEngine 500 (by with_unfolding_all decide)⟩

end VoiceVAD

set_option maxRecDepth 16000
set_option maxHeartbeats 1000000

namespace VoiceVAD

/-! ## Characterization and frame lemmas for the main engine -/

/-- `smoothEnergy` only rewrites the energy-tracking fields. -/
@[simp] theorem smoothEnergy_state (s : Engine) (r : ℚ) :
    (smoothEnergy s r).state = s.state := rfl

@[simp] theorem smoothEnergy_config (s : Engine) (r : ℚ) :
    (smoothEnergy s r).config = s.config := rfl

@[simp] theorem smoothEnergy_stateStartTime (s : Engine) (r : ℚ) :
    (smoothEnergy s r).stateStartTime = s.stateStartTime := rfl

@[simp] theorem smoothEnergy_segmentCount (s : Engine) (r : ℚ) :
    (smoothEnergy s r).segmentCount = s.segmentCount := rfl

@[simp] theorem smoothEnergy_pauseTriggered (s : Engine) (r : ℚ) :
    (smoothEnergy s r).pauseTriggered = s.pauseTriggered := rfl

@[simp] theorem smoothEnergy_lastSpeechTime (s : Engine) (r : ℚ) :
    (smoothEnergy s r).lastSpeechTime = s.lastSpeechTime := rfl

@[simp] theorem smoothEnergy_silenceStartTime (s : Engine) (r : ℚ) :
    (smoothEnergy s r).silenceStartTime = s.silenceStartTime := rfl

@[simp] theorem smoothEnergy_lastAnalysisTime (s : Engine) (r : ℚ) :
    (smoothEnergy s r).lastAnalysisTime = s.lastAnalysisTime := rfl

@[simp] theorem smoothEnergy_effectiveThreshold (s : Engine) (r : ℚ) :
    (smoothEnergy s r).effectiveThreshold = s.effectiveThreshold := rfl

@[simp] theorem smoothEnergy_speechThreshold (s : Engine) (r : ℚ) :
    (smoothEnergy s r).speechThreshold = s.speechThreshold := rfl

@[simp] theorem smoothEnergy_noiseFloor (s : Engine) (r : ℚ) :
    (smoothEnergy s r).noiseFloor = s.noiseFloor := rfl

@[simp] theorem smoothEnergy_calibrationSamples (s : Engine) (r : ℚ) :
    (smoothEnergy s r).calibrationSamples = s.calibrationSamples := rfl

@[simp] theorem smoothEnergy_isRunning (s : Engine) (r : ℚ) :
    (smoothEnergy s r).isRunning = s.isRunning := rfl

/-- `checkPause` either does nothing, or — when the pause has not fired
yet, speech has been heard, silence timing is open and the pause duration
has elapsed — fires exactly one pause event and bumps the counter. -/
theorem checkPause_eq (s : Engine) (now : ℚ) :
    checkPause s now = (s, []) ∨
    ∃ sst, s.pauseTriggered = false ∧ s.lastSpeechTime ≠ none ∧
      s.silenceStartTime = some sst ∧ s.config.pauseDuration ≤ now - sst ∧
      checkPause s now =
        ({ s with pauseTriggered := true, segmentCount := s.segmentCount + 1 },
         [VCEvent.pauseDetected (s.segmentCount + 1) ((now - sst) / 1000) now
            s.noiseFloor s.effectiveThreshold]) := by
  cases hpt : s.pauseTriggered
  · cases hlst : s.lastSpeechTime
    · left; simp [checkPause, hpt, hlst]
    · cases hsst : s.silenceStartTime
      · left; simp [checkPause, hpt, hlst, hsst]
      · rename_i sst
        by_cases hd : s.config.pauseDuration ≤ now - sst
        · right
          exact ⟨sst, rfl, by simp, rfl, hd,
            by simp [checkPause, hpt, hlst, hsst, hd]⟩
        · left; simp [checkPause, hpt, hlst, hsst, hd]
  · left; simp [checkPause, hpt]

/-- The fields `checkPause` never touches. -/
theorem checkPause_frame (s : Engine) (now : ℚ) :
    (checkPause s now).1.state = s.state ∧
    (checkPause s now).1.config = s.config ∧
    (checkPause s now).1.effectiveThreshold = s.effectiveThreshold ∧
    (checkPause s now).1.speechThreshold = s.speechThreshold ∧
    (checkPause s now).1.noiseFloor = s.noiseFloor ∧
    (checkPause s now).1.lastSpeechTime = s.lastSpeechTime ∧
    (checkPause s now).1.silenceStartTime = s.silenceStartTime ∧
    (checkPause s now).1.lastAnalysisTime = s.lastAnalysisTime ∧
    (checkPause s now).1.isRunning = s.isRunning := by
  rcases checkPause_eq s now with h | ⟨sst, _, _, _, _, h⟩ <;> rw [h] <;>
    exact ⟨rfl, rfl, rfl, rfl, rfl, rfl, rfl, rfl, rfl⟩

@[simp] theorem checkPause_state (s : Engine) (now : ℚ) :
    (checkPause s now).1.state = s.state := (checkPause_frame s now).1

@[simp] theorem checkPause_config (s : Engine) (now : ℚ) :
    (checkPause s now).1.config = s.config := (checkPause_frame s now).2.1

@[simp] theorem checkPause_effectiveThreshold (s : Engine) (now : ℚ) :
    (checkPause s now).1.effectiveThreshold = s.effectiveThreshold :=
  (checkPause_frame s now).2.2.1

@[simp] theorem checkPause_speechThreshold (s : Engine) (now : ℚ) :
    (checkPause s now).1.speechThreshold = s.speechThreshold :=
  (checkPause_frame s now).2.2.2.1

@[simp] theorem checkPause_noiseFloor (s : Engine) (now : ℚ) :
    (checkPause s now).1.noiseFloor = s.noiseFloor :=
  (checkPause_frame s now).2.2.2.2.1

@[simp] theorem checkPause_lastSpeechTime (s : Engine) (now : ℚ) :
    (checkPause s now).1.lastSpeechTime = s.lastSpeechTime :=
  (checkPause_frame s now).2.2.2.2.2.1

@[simp] theorem checkPause_silenceStartTime (s : Engine) (now : ℚ) :
    (checkPause s now).1.silenceStartTime = s.silenceStartTime :=
  (checkPause_frame s now).2.2.2.2.2.2.1

@[simp] theorem checkPause_lastAnalysisTime (s : Engine) (now : ℚ) :
    (checkPause s now).1.lastAnalysisTime = s.lastAnalysisTime :=
  (checkPause_frame s now).2.2.2.2.2.2.2.1

@[simp] theorem checkPause_isRunning (s : Engine) (now : ℚ) :
    (checkPause s now).1.isRunning = s.isRunning :=
  (checkPause_frame s now).2.2.2.2.2.2.2.2

/-- `processVAD` while speaking, with energy above the silence threshold:
stay speaking, record the speech time. -/
theorem processVAD_speakHigh (s : Engine) (e now : ℚ)
    (h1 : s.state = VCState.speaking) (h2 : s.effectiveThreshold < e) :
    processVAD s e now =
      ({ s with lastSpeechTime := some now, silenceStartTime := none }, []) := by
  simp [processVAD, h1, h2]

/-- `processVAD` while speaking, with energy at or below the silence
threshold: drop to silence, open the episode, check the pause. -/
theorem processVAD_speakLow (s : Engine) (e now : ℚ)
    (h1 : s.state = VCState.speaking) (h2 : ¬ s.effectiveThreshold < e) :
    processVAD s e now =
      checkPause { s with state := .silence, stateStartTime := now,
                          silenceStartTime := some now } now := by
  simp [processVAD, h1, h2]

/-- `processVAD` outside speaking, with energy above the speech threshold:
enter speaking immediately and fire `onSpeechStart`. -/
theorem processVAD_silentHigh (s : Engine) (e now : ℚ)
    (h1 : s.state ≠ VCState.speaking) (h2 : s.speechThreshold < e) :
    processVAD s e now =
      ({ s with state := .speaking, stateStartTime := now, pauseTriggered := false,
                lastSpeechTime := some now, silenceStartTime := none },
       [VCEvent.speechStart now e (silenceDurationPayload s.silenceStartTime now)]) := by
  simp [processVAD, h1, h2]

/-- `processVAD` outside speaking, with energy at or below the speech
threshold: keep the silence clock running and check the pause. -/
theorem processVAD_silentLow (s : Engine) (e now : ℚ)
    (h1 : s.state ≠ VCState.speaking) (h2 : ¬ s.speechThreshold < e) :
    processVAD s e now =
      checkPause
        (if s.silenceStartTime = none then { s with silenceStartTime := some now }
         else s) now := by
  simp [processVAD, h1, h2]

/-- A stopped engine ignores ticks. -/
theorem tickE_notRunning (s : Engine) (raw ts now : ℚ) (h : s.isRunning = false) :
    tickE s raw ts now = (s, []) := by
  simp [tickE, h]

/-- A tick inside the throttle interval is a no-op. -/
theorem tickE_throttled (s : Engine) (raw ts now : ℚ)
    (h : ts - s.lastAnalysisTime < s.config.analysisInterval) :
    tickE s raw ts now = (s, []) := by
  cases hrun : s.isRunning <;> simp [tickE, h, hrun]

/-- A tick that passes all three guards runs the analysis body on the
engine with its throttle clock advanced. -/
theorem tickE_run (s : Engine) (raw ts now : ℚ)
    (hrun : s.isRunning = true)
    (hth : ¬ ts - s.lastAnalysisTime < s.config.analysisInterval)
    (han : s.analyserNode = true) (htd : s.timeDomainData = true) :
    tickE s raw ts now = tickBody { s with lastAnalysisTime := ts } raw now := by
  simp [tickE, hrun, hth, han, htd]

/-- `finishCalibration` never touches run bookkeeping, the config, the
energy or the pause machinery. -/
theorem finishCalibration_frame (s : Engine) (now : ℚ) :
    (finishCalibration s now).lastAnalysisTime = s.lastAnalysisTime ∧
    (finishCalibration s now).config = s.config ∧
    (finishCalibration s now).isRunning = s.isRunning ∧
    (finishCalibration s now).segmentCount = s.segmentCount ∧
    (finishCalibration s now).pauseTriggered = s.pauseTriggered ∧
    (finishCalibration s now).lastSpeechTime = s.lastSpeechTime ∧
    (finishCalibration s now).silenceStartTime = s.silenceStartTime ∧
    (finishCalibration s now).smoothedEnergy = s.smoothedEnergy := by
  unfold finishCalibration
  dsimp only
  split <;> exact ⟨rfl, rfl, rfl, rfl, rfl, rfl, rfl, rfl⟩

@[simp] theorem finishCalibration_lastAnalysisTime (s : Engine) (now : ℚ) :
    (finishCalibration s now).lastAnalysisTime = s.lastAnalysisTime :=
  (finishCalibration_frame s now).1

@[simp] theorem finishCalibration_config (s : Engine) (now : ℚ) :
    (finishCalibration s now).config = s.config :=
  (finishCalibration_frame s now).2.1

@[simp] theorem finishCalibration_isRunning (s : Engine) (now : ℚ) :
    (finishCalibration s now).isRunning = s.isRunning :=
  (finishCalibration_frame s now).2.2.1

@[simp] theorem finishCalibration_segmentCount (s : Engine) (now : ℚ) :
    (finishCalibration s now).segmentCount = s.segmentCount :=
  (finishCalibration_frame s now).2.2.2.1

@[simp] theorem finishCalibration_pauseTriggered (s : Engine) (now : ℚ) :
    (finishCalibration s now).pauseTriggered = s.pauseTriggered :=
  (finishCalibration_frame s now).2.2.2.2.1

@[simp] theorem finishCalibration_lastSpeechTime (s : Engine) (now : ℚ) :
    (finishCalibration s now).lastSpeechTime = s.lastSpeechTime :=
  (finishCalibration_frame s now).2.2.2.2.2.1

@[simp] theorem finishCalibration_silenceStartTime (s : Engine) (now : ℚ) :
    (finishCalibration s now).silenceStartTime = s.silenceStartTime :=
  (finishCalibration_frame s now).2.2.2.2.2.2.1

@[simp] theorem finishCalibration_state (s : Engine) (now : ℚ) :
    (finishCalibration s now).state = VCState.silence := rfl

/-- The analysis body always fires `onEnergyUpdate`. -/
theorem tickBody_events_ne_nil (s : Engine) (raw now : ℚ) :
    (tickBody s raw now).2 ≠ [] := by
  unfold tickBody
  dsimp only
  split <;> simp

/-- The analysis body never touches the throttle clock, the run flag or
the config. -/
theorem tickBody_frame (s : Engine) (raw now : ℚ) :
    (tickBody s raw now).1.lastAnalysisTime = s.lastAnalysisTime ∧
    (tickBody s raw now).1.config = s.config ∧
    (tickBody s raw now).1.isRunning = s.isRunning := by
  unfold tickBody
  dsimp only
  split
  · split
    · simp
    · exact ⟨rfl, rfl, rfl⟩
  · by_cases hs : (smoothEnergy s raw).state = VCState.speaking
    · by_cases he : (smoothEnergy s raw).effectiveThreshold < (smoothEnergy s raw).smoothedEnergy
      · rw [processVAD_speakHigh _ _ _ hs he]; exact ⟨rfl, rfl, rfl⟩
      · rw [processVAD_speakLow _ _ _ hs he]; simp
    · by_cases he : (smoothEnergy s raw).speechThreshold < (smoothEnergy s raw).smoothedEnergy
      · rw [processVAD_silentHigh _ _ _ hs he]; exact ⟨rfl, rfl, rfl⟩
      · rw [processVAD_silentLow _ _ _ hs he]
        split <;> simp

end VoiceVAD

namespace VoiceVAD

/-! ## C8: stop() idempotence and stream ownership -/

/-- C8: `stop()` is total in every state; after it, `isRunning` is false
and the state is `idle`; a second `stop()` changes nothing and attempts no
resource release; media tracks can only be stopped when the engine owns
the stream, and `startWithMediaStream` — the entry point for an
externally supplied stream — never hands the engine ownership. -/
theorem c8_stop_idempotent (s : Engine) (now : ℚ) :
    (stop s).1.isRunning = false ∧
    (stop s).1.state = VCState.idle ∧
    stop (stop s).1 = ((stop s).1, []) ∧
    (ReleaseAction.stopTracks ∈ (stop s).2 → s.ownsMediaStream = true) ∧
    (s.isRunning = false → (startWithMediaStream s now).ownsMediaStream = false) := by
  refine ⟨rfl, rfl, ?_, ?_, ?_⟩
  · show (stopState (stopState s), stopActions (stopState s)) = (stopState s, [])
    constructor
  · intro hmem
    cases h3 : s.ownsMediaStream
    · exfalso
      simp only [stop, stopActions, h3] at hmem
      cases h1 : s.animationFrameId <;> cases h2 : s.sourceNode <;>
        cases h5 : s.audioContextOpen <;> simp_all
    · rfl
  · intro hrun
    simp [startWithMediaStream, hrun, buildAudioGraph, initRunState, startCalibration]

/-- C8 witness: the statement evaluated on the started default engine,
which does not own its (externally supplied) stream. -/
theorem c8_stop_idempotent_witness :
    (stop startedEngine).1.isRunning = false ∧
    (stop startedEngine).1.state = VCState.idle ∧
    stop (stop startedEngine).1 = ((stop startedEngine).1, []) ∧
    (ReleaseAction.stopTracks ∈ (stop startedEngine).2 →
      startedEngine.ownsMediaStream = true) ∧
    (startedEngine.isRunning = false →
      (startWithMediaStream startedEngine 0).ownsMediaStream = false) :=
  c8_stop_idempotent startedEngine 0

end VoiceVAD

namespace VoiceVAD

/-! ## C7: empty frames are not rejected -/

/-- C7 counterexample: a tick on an empty frame is not rejected and does
mutate engine state: on the calibrated engine it updates the throttle
clock, folds the empty frame's degenerate RMS into the smoothed energy
(the source's float code produces NaN there; the rational model produces
0 — under either reading the comparison against the positive speech
threshold is false, so the same silence branch runs), and opens silence
timing.  No `InvalidInput` error exists anywhere in the source. -/
theorem c7_empty_frame_counterexample :
    calibratedEngine.silenceStartTime = none ∧
    (tickFrame calibratedEngine [] 100 550).1.silenceStartTime = some 550 ∧
    (tickFrame calibratedEngine [] 100 550).1.smoothedEnergy ≠
      calibratedEngine.smoothedEnergy ∧
    (tickFrame calibratedEngine [] 100 550).1.lastAnalysisTime ≠
      calibratedEngine.lastAnalysisTime := by with_unfolding_all decide

/-- C7 (amended): an empty-frame tick that reaches the analysis body (the
engine is running, the throttle interval has elapsed, the analyser
exists) is processed like any other tick — there is no input validation:
the throttle clock is mutated to the tick's timestamp and the per-tick
`onEnergyUpdate` callback still fires. -/
theorem c7_empty_frame_amended (s : Engine) (timestamp now : ℚ)
    (hrun : s.isRunning = true)
    (hth : s.config.analysisInterval ≤ timestamp - s.lastAnalysisTime)
    (han : s.analyserNode = true) (htd : s.timeDomainData = true) :
    (tickFrame s [] timestamp now).1.lastAnalysisTime = timestamp ∧
    (tickFrame s [] timestamp now).2 ≠ [] := by
  have hth' : ¬ timestamp - s.lastAnalysisTime < s.config.analysisInterval :=
    not_lt.mpr hth
  have h := tickE_run s (computeRMS []) timestamp now hrun hth' han htd
  rw [tickFrame, h]
  refine ⟨?_, tickBody_events_ne_nil _ _ _⟩
  rw [(tickBody_frame _ _ _).1]

/-- C7 witness: the amended statement evaluated on the calibrated engine
at a tick past the throttle interval. -/
theorem c7_empty_frame_witness :
    calibratedEngine.isRunning = true ∧
    calibratedEngine.config.analysisInterval ≤ 100 - calibratedEngine.lastAnalysisTime ∧
    calibratedEngine.analyserNode = true ∧
    calibratedEngine.timeDomainData = true ∧
    ((tickFrame calibratedEngine [] 100 550).1.lastAnalysisTime = 100 ∧
     (tickFrame calibratedEngine [] 100 550).2 ≠ []) :=
  ⟨by with_unfolding_all decide, by with_unfolding_all decide,
   by with_unfolding_all decide, by with_unfolding_all decide,
   c7_empty_frame_amended calibratedEngine 100 550
     (by with_unfolding_all decide) (by with_unfolding_all decide)
     (by with_unfolding_all decide) (by with_unfolding_all decide)⟩

end VoiceVAD

namespace VoiceVAD

/-! ## C2: the speech debounce -/

/-- One burst tick of the part_006 client: above the speech threshold but
within the debounce window, the tick emits nothing and flips nothing but
the burst bookkeeping. -/
theorem analyzeAudio_burst_step (c : RTK6.Client) (raw now : ℚ)
    (hcal : c.isCalibrating = false) (hspk : c.isSpeaking = false)
    (h1 : c.noiseFloor * RTK6.hysteresisRatio <
          RTK6.smoothingFactor * raw + (1 - RTK6.smoothingFactor) * c.smoothedEnergy)
    (h2 : now - (if c.speechStartTime = 0 then now else c.speechStartTime)
            < RTK6.minSpeechDuration) :
    (RTK6.analyzeAudio c raw now).2 = [] ∧
    (RTK6.analyzeAudio c raw now).1.isSpeaking = false ∧
    (RTK6.analyzeAudio c raw now).1.isCalibrating = false := by
  have h2' : ¬ RTK6.minSpeechDuration ≤
      now - (if c.speechStartTime = 0 then now else c.speechStartTime) := not_le.mpr h2
  by_cases hsst : c.speechStartTime = 0
  · rw [if_pos hsst, sub_self] at h2'
    simp [RTK6.analyzeAudio, hcal, hspk, hsst, h1, h2']
  · rw [if_neg hsst] at h2'
    simp [RTK6.analyzeAudio, hcal, hspk, hsst, h1, h2']

/-- C2 counterexample: the main engine has no debounce at all.  Starting
from the freshly calibrated zero-smoothing engine (state `silence`,
`speechMinDuration` left at its default 300 ms), a single tick whose
energy exceeds the speech threshold — a burst of duration 0 ms —
immediately fires `onSpeechStart` and moves the state to `speaking`. -/
theorem c2_no_debounce_counterexample :
    (runTicks zeroSmoothingEngine shortBurstTicks).1.state = VCState.speaking ∧
    speechCount (runTicks zeroSmoothingEngine shortBurstTicks).2 = 1 ∧
    zeroSmoothingEngine.config.speechMinDuration = 300 := by
  with_unfolding_all decide

/-- C2 (amended): the debounce holds in the part_006 variant
(`RealtimeKitClient.analyzeAudio`): from a calibrated, non-speaking
client, a contiguous burst of ticks whose smoothed energy stays above the
speech threshold but which stays within `minSpeechDuration` of the
burst's first tick fires no event at all and never leaves the
non-speaking (silence) state.  In the main engine (`processVAD`) the
config field `speechMinDuration` is dead: the first above-threshold tick
fires `onSpeechStart` immediately. -/
theorem c2_debounce_amended (c : RTK6.Client) (l : List (ℚ × ℚ))
    (hcal : c.isCalibrating = false) (hspk : c.isSpeaking = false)
    (hb : RTK6.burstShort c l = true) :
    (RTK6.runClient c l).2 = [] ∧
    ∀ x ∈ RTK6.traceClients c l, x.isSpeaking = false := by
  induction l generalizing c with
  | nil =>
    refine ⟨rfl, ?_⟩
    intro x hx
    simp only [RTK6.traceClients, List.mem_singleton] at hx
    rw [hx]; exact hspk
  | cons p rest ih =>
    obtain ⟨raw, now⟩ := p
    simp only [RTK6.burstShort, Bool.and_eq_true, decide_eq_true_eq] at hb
    obtain ⟨⟨h1, h2⟩, h3⟩ := hb
    obtain ⟨hev, hspk1, hcal1⟩ := analyzeAudio_burst_step c raw now hcal hspk h1 h2
    obtain ⟨hev2, htr⟩ := ih (RTK6.analyzeAudio c raw now).1 hcal1 hspk1 h3
    refine ⟨?_, ?_⟩
    · simp only [RTK6.runClient, hev, hev2, List.nil_append]
    · intro x hx
      simp only [RTK6.traceClients, List.mem_cons] at hx
      rcases hx with hx | hx
      · rw [hx]; exact hspk
      · exact htr x hx

/-- C2 witness: the amended statement on the calibrated part_006 client,
for a two-tick burst above threshold spanning 300 ms < 500 ms. -/
theorem c2_debounce_witness :
    rtkCalibrated.isCalibrating = false ∧ rtkCalibrated.isSpeaking = false ∧
    RTK6.burstShort rtkCalibrated rtkBurst = true ∧
    ((RTK6.runClient rtkCalibrated rtkBurst).2 = [] ∧
     ∀ x ∈ RTK6.traceClients rtkCalibrated rtkBurst, x.isSpeaking = false) :=
  ⟨by with_unfolding_all decide, by with_unfolding_all decide,
   by with_unfolding_all decide,
   c2_debounce_amended rtkCalibrated rtkBurst (by with_unfolding_all decide)
     (by with_unfolding_all decide) (by with_unfolding_all decide)⟩

/-! ## C4: bounds on the adaptive noise floor -/

/-- C4 counterexample: in the part_006 variant, calibration on silence
clamps the floor to the configured minimum `0.008`, and the very next
adaptive update (`floor := 0.998·floor + 0.002·smoothed` with smoothed
energy 0) drags the floor strictly below that minimum — the floor is not
bounded below by the minimum after calibration. -/
theorem c4_floor_minimum_counterexample :
    (RTK6.runClient rtkStarted [(0, 1000)]).1.noiseFloor = 1/125 ∧
    (RTK6.runClient rtkStarted [(0, 1000)]).1.isCalibrating = false ∧
    (RTK6.runClient rtkStarted [(0, 1000), (0, 1100)]).1.noiseFloor < 1/125 := by
  with_unfolding_all decide

/-- Arithmetic core of the floor adaptation: a convex combination with
weights `0.998` and `0.002` stays between its two endpoints. -/
theorem convex_floor_sandwich (f e : ℚ) :
    min f e ≤ 998/1000 * f + 2/1000 * e ∧ 998/1000 * f + 2/1000 * e ≤ max f e := by
  rcases le_total f e with h | h
  · constructor
    · exact le_trans (min_le_left _ _) (by linarith)
    · exact le_trans (by linarith) (le_max_right _ _)
  · constructor
    · exact le_trans (min_le_right _ _) (by linarith)
    · exact le_trans (by linarith) (le_max_left _ _)

/-- C4 (amended): each post-calibration tick moves the noise floor at
most between its old value and the tick's updated smoothed energy: a
convex-combination sandwich `min(floor, smoothed) ≤ floor' ≤ max(floor,
smoothed)`.  In particular the floor can drift below the configured
minimum (no clamp is applied during adaptation), and it never exceeds the
larger of its previous value and the current smoothed energy. -/
theorem c4_floor_sandwich_amended (c : RTK6.Client) (raw now : ℚ)
    (hcal : c.isCalibrating = false) :
    min c.noiseFloor
        (RTK6.smoothingFactor * raw + (1 - RTK6.smoothingFactor) * c.smoothedEnergy)
      ≤ (RTK6.analyzeAudio c raw now).1.noiseFloor ∧
    (RTK6.analyzeAudio c raw now).1.noiseFloor
      ≤ max c.noiseFloor
          (RTK6.smoothingFactor * raw + (1 - RTK6.smoothingFactor) * c.smoothedEnergy) := by
  unfold RTK6.analyzeAudio
  dsimp only
  simp only [hcal, Bool.false_eq_true, if_false]
  split_ifs <;>
    first
      | exact ⟨min_le_left _ _, le_max_left _ _⟩
      | exact convex_floor_sandwich _ _

/-- C4 witness: the sandwich evaluated on the calibrated part_006 client
at one quiet tick. -/
theorem c4_floor_sandwich_witness :
    rtkCalibrated.isCalibrating = false ∧
    (min rtkCalibrated.noiseFloor
        (RTK6.smoothingFactor * 0 + (1 - RTK6.smoothingFactor) * rtkCalibrated.smoothedEnergy)
      ≤ (RTK6.analyzeAudio rtkCalibrated 0 2000).1.noiseFloor ∧
     (RTK6.analyzeAudio rtkCalibrated 0 2000).1.noiseFloor
      ≤ max rtkCalibrated.noiseFloor
          (RTK6.smoothingFactor * 0 + (1 - RTK6.smoothingFactor) * rtkCalibrated.smoothedEnergy)) :=
  ⟨by with_unfolding_all decide,
   c4_floor_sandwich_amended rtkCalibrated 0 2000 (by with_unfolding_all decide)⟩

end VoiceVAD

namespace VoiceVAD

/-! ## C3: the hysteresis invariant and the absent validation -/

/-- `processVAD` never touches the thresholds, the config, the throttle
clock or the run flag. -/
theorem processVAD_frame (s : Engine) (e now : ℚ) :
    (processVAD s e now).1.config = s.config ∧
    (processVAD s e now).1.effectiveThreshold = s.effectiveThreshold ∧
    (processVAD s e now).1.speechThreshold = s.speechThreshold ∧
    (processVAD s e now).1.lastAnalysisTime = s.lastAnalysisTime ∧
    (processVAD s e now).1.isRunning = s.isRunning ∧
    (processVAD s e now).1.noiseFloor = s.noiseFloor := by
  by_cases hs : s.state = VCState.speaking
  · by_cases he : s.effectiveThreshold < e
    · rw [processVAD_speakHigh _ _ _ hs he]
      exact ⟨rfl, rfl, rfl, rfl, rfl, rfl⟩
    · rw [processVAD_speakLow _ _ _ hs he]; simp
  · by_cases he : s.speechThreshold < e
    · rw [processVAD_silentHigh _ _ _ hs he]
      exact ⟨rfl, rfl, rfl, rfl, rfl, rfl⟩
    · rw [processVAD_silentLow _ _ _ hs he]
      split <;> simp

/-- `finishCalibration` keeps the hysteresis invariant as long as the
current config has `hysteresisRatio > 1` and `silenceThreshold > 0`. -/
theorem finishCalibration_hyst (s : Engine) (now : ℚ)
    (hcfg1 : 1 < s.config.hysteresisRatio) (hcfg2 : 0 < s.config.silenceThreshold)
    (hinv1 : 0 < s.effectiveThreshold) (hinv2 : s.effectiveThreshold < s.speechThreshold) :
    0 < (finishCalibration s now).effectiveThreshold ∧
    (finishCalibration s now).effectiveThreshold
      < (finishCalibration s now).speechThreshold := by
  unfold finishCalibration
  dsimp only
  split
  · refine ⟨lt_of_lt_of_le hcfg2 (le_max_right _ _), ?_⟩
    exact lt_mul_of_one_lt_right (lt_of_lt_of_le hcfg2 (le_max_right _ _)) hcfg1
  · exact ⟨hinv1, hinv2⟩

/-- The analysis body keeps the hysteresis invariant under a good
config. -/
theorem tickBody_hyst (s : Engine) (raw now : ℚ)
    (hcfg1 : 1 < s.config.hysteresisRatio) (hcfg2 : 0 < s.config.silenceThreshold)
    (hinv1 : 0 < s.effectiveThreshold) (hinv2 : s.effectiveThreshold < s.speechThreshold) :
    (tickBody s raw now).1.config = s.config ∧
    0 < (tickBody s raw now).1.effectiveThreshold ∧
    (tickBody s raw now).1.effectiveThreshold < (tickBody s raw now).1.speechThreshold := by
  unfold tickBody
  dsimp only
  split
  · split
    · refine ⟨by simp, ?_⟩
      exact finishCalibration_hyst _ now hcfg1 hcfg2 hinv1 hinv2
    · exact ⟨rfl, hinv1, hinv2⟩
  · obtain ⟨hc, he, hsp, _, _, _⟩ := processVAD_frame
      (smoothEnergy s raw) (smoothEnergy s raw).smoothedEnergy now
    rw [hc, he, hsp]
    exact ⟨rfl, hinv1, hinv2⟩

/-- A tick keeps the hysteresis invariant under a good config. -/
theorem tickE_hyst (s : Engine) (t : Tick)
    (hcfg1 : 1 < s.config.hysteresisRatio) (hcfg2 : 0 < s.config.silenceThreshold)
    (hinv1 : 0 < s.effectiveThreshold) (hinv2 : s.effectiveThreshold < s.speechThreshold) :
    (tickE s t.raw t.timestamp t.now).1.config = s.config ∧
    0 < (tickE s t.raw t.timestamp t.now).1.effectiveThreshold ∧
    (tickE s t.raw t.timestamp t.now).1.effectiveThreshold
      < (tickE s t.raw t.timestamp t.now).1.speechThreshold := by
  cases hrun : s.isRunning
  · rw [tickE_notRunning _ _ _ _ hrun]; exact ⟨rfl, hinv1, hinv2⟩
  · by_cases hth : t.timestamp - s.lastAnalysisTime < s.config.analysisInterval
    · rw [tickE_throttled _ _ _ _ hth]; exact ⟨rfl, hinv1, hinv2⟩
    · cases han : s.analyserNode
      · unfold tickE
        simp [hrun, hth, han]
        exact ⟨hinv1, hinv2⟩
      · cases htd : s.timeDomainData
        · unfold tickE
          simp [hrun, hth, han, htd]
          exact ⟨hinv1, hinv2⟩
        · rw [tickE_run _ _ _ _ hrun hth han htd]
          exact tickBody_hyst _ _ _ hcfg1 hcfg2 hinv1 hinv2

/-- The component bounds extracted from a passing `patchOK`. -/
theorem patchOK_bounds (c : ConfigPatch) (h : patchOK c = true) :
    1 < c.hysteresisRatio.getD (13/10) ∧ 0 < c.silenceThreshold.getD (15/1000) := by
  constructor
  · cases hx : c.hysteresisRatio
    · simp only [Option.getD_none]; norm_num
    · simp only [patchOK, hx, Bool.and_eq_true, decide_eq_true_eq] at h
      simpa using h.1
  · cases hx : c.silenceThreshold
    · simp only [Option.getD_none]; norm_num
    · simp only [patchOK, hx, Bool.and_eq_true, decide_eq_true_eq] at h
      simpa using h.2

/-- One public operation keeps the good-config property and the
hysteresis invariant. -/
theorem applyOp_hyst (s : Engine) (o : Op) (hok : opOK o = true)
    (hcfg1 : 1 < s.config.hysteresisRatio) (hcfg2 : 0 < s.config.silenceThreshold)
    (hinv1 : 0 < s.effectiveThreshold) (hinv2 : s.effectiveThreshold < s.speechThreshold) :
    1 < (applyOp s o).config.hysteresisRatio ∧
    0 < (applyOp s o).config.silenceThreshold ∧
    0 < (applyOp s o).effectiveThreshold ∧
    (applyOp s o).effectiveThreshold < (applyOp s o).speechThreshold := by
  cases o with
  | tick t =>
    obtain ⟨hc, h1, h2⟩ := tickE_hyst s t hcfg1 hcfg2 hinv1 hinv2
    exact ⟨by rw [show (applyOp s (Op.tick t)).config = _ from hc]; exact hcfg1,
           by rw [show (applyOp s (Op.tick t)).config = _ from hc]; exact hcfg2, h1, h2⟩
  | recal now =>
    simp only [applyOp, recalibrate]
    split
    · exact ⟨hcfg1, hcfg2, hinv1, hinv2⟩
    · exact ⟨hcfg1, hcfg2, hinv1, hinv2⟩
  | halt => exact ⟨hcfg1, hcfg2, hinv1, hinv2⟩
  | update c =>
    have hok' : patchOK c = true := hok
    have hr : 1 < c.hysteresisRatio.getD s.config.hysteresisRatio := by
      cases hx : c.hysteresisRatio
      · simpa using hcfg1
      · simp only [patchOK, hx, Bool.and_eq_true, decide_eq_true_eq] at hok'
        simpa using hok'.1
    have hst : 0 < c.silenceThreshold.getD s.config.silenceThreshold := by
      cases hx : c.silenceThreshold
      · simpa using hcfg2
      · simp only [patchOK, hx, Bool.and_eq_true, decide_eq_true_eq] at hok'
        simpa using hok'.2
    simp only [applyOp, updateConfig]
    split
    · exact ⟨hr, hst, lt_of_lt_of_le hst (le_max_right _ _),
        lt_mul_of_one_lt_right (lt_of_lt_of_le hst (le_max_right _ _)) hr⟩
    · exact ⟨hr, hst, hinv1, hinv2⟩

/-- A whole operation sequence keeps the hysteresis invariant. -/
theorem runOps_hyst (ops : List Op) (s : Engine)
    (hops : ∀ o ∈ ops, opOK o = true)
    (hcfg1 : 1 < s.config.hysteresisRatio) (hcfg2 : 0 < s.config.silenceThreshold)
    (hinv1 : 0 < s.effectiveThreshold) (hinv2 : s.effectiveThreshold < s.speechThreshold) :
    0 < (runOps s ops).effectiveThreshold ∧
    (runOps s ops).effectiveThreshold < (runOps s ops).speechThreshold := by
  induction ops generalizing s with
  | nil => exact ⟨hinv1, hinv2⟩
  | cons o rest ih =>
    obtain ⟨g1, g2, g3, g4⟩ := applyOp_hyst s o (hops o (List.mem_cons_self o rest))
      hcfg1 hcfg2 hinv1 hinv2
    exact ih (applyOp s o) (fun x hx => hops x (List.mem_cons_of_mem o hx)) g1 g2 g3 g4

/-- C3 counterexample: no configuration validation exists.  A
`hysteresisRatio` of `1/2` is accepted without any error (the source has
no `ConfigurationError` and no throw in the constructor), and the
resulting engine violates the strict inequality right away:
`speechThreshold < effectiveThreshold`. -/
theorem c3_no_validation_counterexample :
    (VoiceCapture.new { hysteresisRatio := some (1/2) }).speechThreshold
      < (VoiceCapture.new { hysteresisRatio := some (1/2) }).effectiveThreshold := by
  with_unfolding_all decide

/-- C3 (amended): the code never rejects a configuration — there is no
`ConfigurationError` — and a `hysteresisRatio ≤ 1` silently produces
`speechThreshold ≤ silenceThreshold`.  For every configuration whose
supplied `hysteresisRatio` exceeds `1` and whose supplied
`silenceThreshold` is positive (the defaults qualify), the strict
inequality `effectiveThreshold < speechThreshold` holds at construction
and is preserved by every reachable state: any sequence of ticks,
`recalibrate`, `stop` and threshold-bound-respecting `updateConfig`
calls. -/
theorem c3_hysteresis_amended (c : ConfigPatch) (now0 : ℚ) (ops : List Op)
    (hc : patchOK c = true) (hops : ∀ o ∈ ops, opOK o = true) :
    (runOps (startWithMediaStream (VoiceCapture.new c) now0) ops).effectiveThreshold
      < (runOps (startWithMediaStream (VoiceCapture.new c) now0) ops).speechThreshold := by
  obtain ⟨hr, hst⟩ := patchOK_bounds c hc
  have hcfg1 : 1 < (startWithMediaStream (VoiceCapture.new c) now0).config.hysteresisRatio := hr
  have hcfg2 : 0 < (startWithMediaStream (VoiceCapture.new c) now0).config.silenceThreshold := hst
  have hinv1 : 0 < (startWithMediaStream (VoiceCapture.new c) now0).effectiveThreshold := hst
  have hinv2 : (startWithMediaStream (VoiceCapture.new c) now0).effectiveThreshold
      < (startWithMediaStream (VoiceCapture.new c) now0).speechThreshold :=
    lt_mul_of_one_lt_right hst hr
  exact (runOps_hyst ops _ hops hcfg1 hcfg2 hinv1 hinv2).2

/-- C3 witness: the amended statement on the default configuration with a
tick and a runtime `noiseMargin` update. -/
theorem c3_hysteresis_witness :
    patchOK {} = true ∧ (∀ o ∈ sampleOps, opOK o = true) ∧
    (runOps (startWithMediaStream (VoiceCapture.new {}) 0) sampleOps).effectiveThreshold
      < (runOps (startWithMediaStream (VoiceCapture.new {}) 0) sampleOps).speechThreshold :=
  ⟨by with_unfolding_all decide, by with_unfolding_all decide,
   c3_hysteresis_amended {} 0 sampleOps (by with_unfolding_all decide)
     (by with_unfolding_all decide)⟩

end VoiceVAD

namespace VoiceVAD

/-! ## C9: recalibrate resets only calibration state -/

/-- Pause and speech-start counts distribute over event concatenation. -/
@[simp] theorem pauseCount_append (a b : List VCEvent) :
    pauseCount (a ++ b) = pauseCount a + pauseCount b :=
  List.countP_append _ _ _

@[simp] theorem speechCount_append (a b : List VCEvent) :
    speechCount (a ++ b) = speechCount a + speechCount b :=
  List.countP_append _ _ _

@[simp] theorem pauseCount_nil : pauseCount [] = 0 := rfl

@[simp] theorem speechCount_nil : speechCount [] = 0 := rfl

/-- A tick on a calibrating engine whose window has not yet elapsed stays
calibrating, keeps the window anchor and the config, and fires neither
speech nor pause events. -/
theorem tickE_calKeep (s : Engine) (t : Tick)
    (h1 : s.state = VCState.calibrating)
    (h2 : ¬ s.config.calibrationDuration ≤ t.now - s.stateStartTime) :
    (tickE s t.raw t.timestamp t.now).1.state = VCState.calibrating ∧
    (tickE s t.raw t.timestamp t.now).1.stateStartTime = s.stateStartTime ∧
    (tickE s t.raw t.timestamp t.now).1.config = s.config ∧
    speechCount (tickE s t.raw t.timestamp t.now).2 = 0 ∧
    pauseCount (tickE s t.raw t.timestamp t.now).2 = 0 := by
  cases hrun : s.isRunning
  · rw [tickE_notRunning _ _ _ _ hrun]
    exact ⟨h1, rfl, rfl, rfl, rfl⟩
  · by_cases hth : t.timestamp - s.lastAnalysisTime < s.config.analysisInterval
    · rw [tickE_throttled _ _ _ _ hth]
      exact ⟨h1, rfl, rfl, rfl, rfl⟩
    · cases han : s.analyserNode
      · unfold tickE
        simp [hrun, hth, han, h1]
      · cases htd : s.timeDomainData
        · unfold tickE
          simp [hrun, hth, han, htd, h1]
        · rw [tickE_run _ _ _ _ hrun hth han htd]
          unfold tickBody
          dsimp only
          simp [h1, h2, speechCount, pauseCount, VCEvent.isSpeechStart, VCEvent.isPause]

/-- A run of ticks all inside the calibration window keeps the engine
calibrating and fires no speech or pause events. -/
theorem runTicks_calibrating (ticks : List Tick) (s : Engine)
    (h1 : s.state = VCState.calibrating)
    (h2 : ∀ t ∈ ticks, ¬ s.config.calibrationDuration ≤ t.now - s.stateStartTime) :
    (runTicks s ticks).1.state = VCState.calibrating ∧
    speechCount (runTicks s ticks).2 = 0 ∧
    pauseCount (runTicks s ticks).2 = 0 := by
  induction ticks generalizing s with
  | nil => exact ⟨h1, rfl, rfl⟩
  | cons t rest ih =>
    obtain ⟨k1, k2, k3, k4, k5⟩ := tickE_calKeep s t h1 (h2 t (List.mem_cons_self t rest))
    have hrest : ∀ u ∈ rest,
        ¬ (tickE s t.raw t.timestamp t.now).1.config.calibrationDuration
            ≤ u.now - (tickE s t.raw t.timestamp t.now).1.stateStartTime := by
      intro u hu
      rw [k3, k2]
      exact h2 u (List.mem_cons_of_mem t hu)
    obtain ⟨m1, m2, m3⟩ := ih _ k1 hrest
    refine ⟨?_, ?_, ?_⟩
    · simpa only [runTicks] using m1
    · simp only [runTicks, speechCount_append, k4, m2]
    · simp only [runTicks, pauseCount_append, k5, m3]

/-- C9: `recalibrate` while running immediately enters `calibrating`,
resets only the calibration bookkeeping (samples, window anchor,
`isCalibrating`), leaves every other engine field — segment counter,
smoothed energy, run flag, config, floor, thresholds, pause and speech
timing — untouched, and no `onSpeechStart`/`onPauseDetected` can fire on
any tick run that stays inside the new calibration window. -/
theorem c9_recalibrate_resets_calibration (s : Engine) (now : ℚ) (ticks : List Tick)
    (hrun : s.isRunning = true)
    (hcal : ∀ t ∈ ticks, ¬ s.config.calibrationDuration ≤ t.now - now) :
    (recalibrate s now).state = VCState.calibrating ∧
    (recalibrate s now).isCalibrating = true ∧
    (recalibrate s now).calibrationSamples = [] ∧
    (recalibrate s now).stateStartTime = now ∧
    (recalibrate s now).segmentCount = s.segmentCount ∧
    (recalibrate s now).smoothedEnergy = s.smoothedEnergy ∧
    (recalibrate s now).isRunning = s.isRunning ∧
    (recalibrate s now).config = s.config ∧
    (recalibrate s now).noiseFloor = s.noiseFloor ∧
    (recalibrate s now).effectiveThreshold = s.effectiveThreshold ∧
    (recalibrate s now).speechThreshold = s.speechThreshold ∧
    (recalibrate s now).pauseTriggered = s.pauseTriggered ∧
    (recalibrate s now).silenceStartTime = s.silenceStartTime ∧
    (recalibrate s now).lastSpeechTime = s.lastSpeechTime ∧
    speechCount (runTicks (recalibrate s now) ticks).2 = 0 ∧
    pauseCount (runTicks (recalibrate s now) ticks).2 = 0 ∧
    (runTicks (recalibrate s now) ticks).1.state = VCState.calibrating := by
  have hre : recalibrate s now = startCalibration s now := by
    simp [recalibrate, hrun]
  rw [hre]
  have big := runTicks_calibrating ticks (startCalibration s now) rfl
    (by intro t ht; exact hcal t ht)
  exact ⟨rfl, rfl, rfl, rfl, rfl, rfl, rfl, rfl, rfl, rfl, rfl, rfl, rfl, rfl,
    big.2.1, big.2.2, big.1⟩

/-- C9 witness: `recalibrate` called mid-`speaking` on the zero-smoothing
engine, followed by two ticks inside the fresh calibration window. -/
theorem c9_recalibrate_witness :
    speakingEngine.isRunning = true ∧
    (∀ t ∈ recalTicks, ¬ speakingEngine.config.calibrationDuration ≤ t.now - 600) ∧
    ((recalibrate speakingEngine 600).state = VCState.calibrating ∧
     (recalibrate speakingEngine 600).isCalibrating = true ∧
     (recalibrate speakingEngine 600).calibrationSamples = [] ∧
     (recalibrate speakingEngine 600).stateStartTime = 600 ∧
     (recalibrate speakingEngine 600).segmentCount = speakingEngine.segmentCount ∧
     (recalibrate speakingEngine 600).smoothedEnergy = speakingEngine.smoothedEnergy ∧
     (recalibrate speakingEngine 600).isRunning = speakingEngine.isRunning ∧
     (recalibrate speakingEngine 600).config = speakingEngine.config ∧
     (recalibrate speakingEngine 600).noiseFloor = speakingEngine.noiseFloor ∧
     (recalibrate speakingEngine 600).effectiveThreshold = speakingEngine.effectiveThreshold ∧
     (recalibrate speakingEngine 600).speechThreshold = speakingEngine.speechThreshold ∧
     (recalibrate speakingEngine 600).pauseTriggered = speakingEngine.pauseTriggered ∧
     (recalibrate speakingEngine 600).silenceStartTime = speakingEngine.silenceStartTime ∧
     (recalibrate speakingEngine 600).lastSpeechTime = speakingEngine.lastSpeechTime ∧
     speechCount (runTicks (recalibrate speakingEngine 600) recalTicks).2 = 0 ∧
     pauseCount (runTicks (recalibrate speakingEngine 600) recalTicks).2 = 0 ∧
     (runTicks (recalibrate speakingEngine 600) recalTicks).1.state = VCState.calibrating) :=
  ⟨by with_unfolding_all decide, by with_unfolding_all decide,
   c9_recalibrate_resets_calibration speakingEngine 600 recalTicks
     (by with_unfolding_all decide) (by with_unfolding_all decide)⟩

end VoiceVAD

namespace VoiceVAD

/-! ## C1: single-fire pause per silence episode -/

/-- Every state trace starts with its own starting state. -/
theorem self_mem_traceStates (s : Engine) (ticks : List Tick) :
    s ∈ traceStates s ticks := by
  cases ticks <;> simp [traceStates]

@[simp] theorem pauseCount_cons (e : VCEvent) (l : List VCEvent) :
    pauseCount (e :: l) = pauseCount l + (if e.isPause then 1 else 0) :=
  List.countP_cons _ _ _

@[simp] theorem speechCount_cons (e : VCEvent) (l : List VCEvent) :
    speechCount (e :: l) = speechCount l + (if e.isSpeechStart then 1 else 0) :=
  List.countP_cons _ _ _

@[simp] theorem isPause_energyUpdate (a : ℚ) (b : Bool) :
    (VCEvent.energyUpdate a b).isPause = false := rfl

@[simp] theorem isPause_speechStart (a b c : ℚ) :
    (VCEvent.speechStart a b c).isPause = false := rfl

@[simp] theorem isPause_pauseDetected (n : ℕ) (a b c d : ℚ) :
    (VCEvent.pauseDetected n a b c d).isPause = true := rfl

@[simp] theorem isSpeechStart_energyUpdate (a : ℚ) (b : Bool) :
    (VCEvent.energyUpdate a b).isSpeechStart = false := rfl

@[simp] theorem isSpeechStart_speechStart (a b c : ℚ) :
    (VCEvent.speechStart a b c).isSpeechStart = true := rfl

@[simp] theorem isSpeechStart_pauseDetected (n : ℕ) (a b c d : ℚ) :
    (VCEvent.pauseDetected n a b c d).isSpeechStart = false := rfl

/-- One tick that neither starts from nor lands in `speaking`: the
segment counter moves exactly by the number of pause events (0 or 1), a
pause can only fire with the trigger still clear, firing sets the
trigger, and a fireless tick leaves the trigger alone. -/
theorem tickE_noSpeak_spec (s : Engine) (t : Tick)
    (h : s.state ≠ VCState.speaking)
    (h2 : (tickE s t.raw t.timestamp t.now).1.state ≠ VCState.speaking) :
    (tickE s t.raw t.timestamp t.now).1.segmentCount
      = s.segmentCount + pauseCount (tickE s t.raw t.timestamp t.now).2 ∧
    pauseCount (tickE s t.raw t.timestamp t.now).2 ≤ 1 ∧
    (s.pauseTriggered = true → pauseCount (tickE s t.raw t.timestamp t.now).2 = 0 ∧
        (tickE s t.raw t.timestamp t.now).1.pauseTriggered = true) ∧
    (pauseCount (tickE s t.raw t.timestamp t.now).2 = 0 →
        (tickE s t.raw t.timestamp t.now).1.pauseTriggered = s.pauseTriggered) ∧
    (pauseCount (tickE s t.raw t.timestamp t.now).2 = 1 →
        (tickE s t.raw t.timestamp t.now).1.pauseTriggered = true) := by
  cases hrun : s.isRunning
  · rw [tickE_notRunning _ _ _ _ hrun]
    exact ⟨by simp, by simp, fun hpt => ⟨rfl, hpt⟩, fun _ => rfl, fun h1 => by simp at h1⟩
  · by_cases hth : t.timestamp - s.lastAnalysisTime < s.config.analysisInterval
    · rw [tickE_throttled _ _ _ _ hth]
      exact ⟨by simp, by simp, fun hpt => ⟨rfl, hpt⟩, fun _ => rfl, fun h1 => by simp at h1⟩
    · cases han : s.analyserNode
      · have heq : tickE s t.raw t.timestamp t.now
            = ({ s with lastAnalysisTime := t.timestamp }, []) := by
          unfold tickE; simp [hrun, hth, han]
        rw [heq]
        exact ⟨by simp, by simp, fun hpt => ⟨rfl, hpt⟩, fun _ => rfl, fun h1 => by simp at h1⟩
      · cases htd : s.timeDomainData
        · have heq : tickE s t.raw t.timestamp t.now
              = ({ s with lastAnalysisTime := t.timestamp }, []) := by
            unfold tickE; simp [hrun, hth, han, htd]
          rw [heq]
          exact ⟨by simp, by simp, fun hpt => ⟨rfl, hpt⟩, fun _ => rfl, fun h1 => by simp at h1⟩
        · rw [tickE_run _ _ _ _ hrun hth han htd] at h2 ⊢
          unfold tickBody at h2 ⊢
          dsimp only at h2 ⊢
          by_cases hcal : s.state = VCState.calibrating
          · rw [if_pos (by simpa using hcal)] at h2 ⊢
            split <;>
              refine ⟨by simp, by simp, fun hpt => ⟨by simp, by simp [hpt]⟩,
                fun _ => by simp, fun h1 => by simp at h1⟩
          · rw [if_neg (by simpa using hcal)] at h2 ⊢
            have hs2 : (smoothEnergy { s with lastAnalysisTime := t.timestamp } t.raw).state
                ≠ VCState.speaking := by simpa using h
            by_cases he : (smoothEnergy { s with lastAnalysisTime := t.timestamp } t.raw).speechThreshold
                < (smoothEnergy { s with lastAnalysisTime := t.timestamp } t.raw).smoothedEnergy
            · rw [processVAD_silentHigh _ _ _ hs2 he] at h2
              simp at h2
            · rw [processVAD_silentLow _ _ _ hs2 he] at h2 ⊢
              rcases checkPause_eq
                  (if (smoothEnergy { s with lastAnalysisTime := t.timestamp } t.raw).silenceStartTime = none
                   then { smoothEnergy { s with lastAnalysisTime := t.timestamp } t.raw with
                            silenceStartTime := some t.now }
                   else smoothEnergy { s with lastAnalysisTime := t.timestamp } t.raw) t.now
                with hcp | ⟨sst, hb1, hb2, hb3, hb4, hcp⟩ <;> rw [hcp] <;>
                [skip; skip] <;> clear hcp
              · refine ⟨?_, by simp, fun hpt => ⟨by simp, ?_⟩, fun _ => ?_, fun h1 => by simp at h1⟩
                · split <;> simp
                · split <;> simp [hpt]
                · split <;> simp
              · have hb1' : s.pauseTriggered = false := by
                  revert hb1; split <;> simp
                refine ⟨?_, by simp, fun hpt => ?_, fun h0 => ?_, fun _ => by simp⟩
                · split <;> simp
                · rw [hpt] at hb1'; cases hb1'
                · simp at h0
  
/-- A run of ticks that never visits `speaking`: the pause fires at most
once over the whole run, the segment counter advances exactly by the
number of fires, and a run entered with the trigger already set fires
nothing. -/
theorem runTicks_noSpeaking (ticks : List Tick) (s : Engine)
    (h : ∀ e ∈ traceStates s ticks, e.state ≠ VCState.speaking) :
    (runTicks s ticks).1.segmentCount = s.segmentCount + pauseCount (runTicks s ticks).2 ∧
    pauseCount (runTicks s ticks).2 ≤ 1 ∧
    (s.pauseTriggered = true → pauseCount (runTicks s ticks).2 = 0) := by
  induction ticks generalizing s with
  | nil => exact ⟨by simp [runTicks], by simp [runTicks], fun _ => by simp [runTicks]⟩
  | cons t rest ih =>
    have hs : s.state ≠ VCState.speaking := h s (by simp [traceStates])
    have hs1mem : (tickE s t.raw t.timestamp t.now).1 ∈ traceStates s (t :: rest) := by
      simp only [traceStates]
      exact List.mem_cons_of_mem _ (self_mem_traceStates _ _)
    have hs1 : (tickE s t.raw t.timestamp t.now).1.state ≠ VCState.speaking := h _ hs1mem
    obtain ⟨a1, a2, a3, a4, a5⟩ := tickE_noSpeak_spec s t hs hs1
    have hrest : ∀ e ∈ traceStates (tickE s t.raw t.timestamp t.now).1 rest,
        e.state ≠ VCState.speaking := by
      intro e he
      exact h e (by simp only [traceStates]; exact List.mem_cons_of_mem _ he)
    obtain ⟨b1, b2, b3⟩ := ih _ hrest
    refine ⟨?_, ?_, ?_⟩
    · simp only [runTicks, pauseCount_append]
      rw [b1, a1]
      omega
    · rcases Nat.eq_zero_or_pos (pauseCount (tickE s t.raw t.timestamp t.now).2) with hz | hpos
      · simp only [runTicks, pauseCount_append, hz, Nat.zero_add]
        exact b2
      · have hp1 : pauseCount (tickE s t.raw t.timestamp t.now).2 = 1 :=
          le_antisymm a2 hpos
        have hz2 : pauseCount (runTicks (tickE s t.raw t.timestamp t.now).1 rest).2 = 0 :=
          b3 (a5 hp1)
        simp only [runTicks, pauseCount_append, hp1, hz2]
        omega
    · intro hpt
      obtain ⟨hz, hkeep⟩ := a3 hpt
      have hz2 := b3 hkeep
      simp only [runTicks, pauseCount_append, hz, hz2]

/-- C1: within one continuous silence episode — a run that starts in
`silence` and never transitions to `speaking` — `onPauseDetected` fires
at most once no matter how long the silence continues, and the segment
counter advances exactly by the number of fires: by one when the pause
fires and not at all otherwise. -/
theorem c1_single_fire_pause (s : Engine) (ticks : List Tick)
    (_hsil : s.state = VCState.silence)
    (hns : ∀ e ∈ traceStates s ticks, e.state ≠ VCState.speaking) :
    pauseCount (runTicks s ticks).2 ≤ 1 ∧
    (runTicks s ticks).1.segmentCount = s.segmentCount + pauseCount (runTicks s ticks).2 := by
  obtain ⟨a, b, _⟩ := runTicks_noSpeaking ticks s hns
  exact ⟨b, a⟩

/-- C1 witness: the episode opened after a confirmed speech segment on
the zero-smoothing engine; the pause fires at the first tick past 3000 ms
and the far-future second tick fires nothing more. -/
theorem c1_single_fire_pause_witness :
    episodeStart.state = VCState.silence ∧
    (∀ e ∈ traceStates episodeStart episodeTicks, e.state ≠ VCState.speaking) ∧
    (pauseCount (runTicks episodeStart episodeTicks).2 ≤ 1 ∧
     (runTicks episodeStart episodeTicks).1.segmentCount =
       episodeStart.segmentCount + pauseCount (runTicks episodeStart episodeTicks).2) :=
  ⟨by with_unfolding_all decide, by with_unfolding_all decide,
   c1_single_fire_pause episodeStart episodeTicks (by with_unfolding_all decide)
     (by with_unfolding_all decide)⟩

end VoiceVAD

namespace VoiceVAD

/-! ## C10: no pause before the first speech -/

/-- One tick on an engine that has never heard speech and fires no
speech-start event: speech time stays unset, the state stays out of
`speaking`, and no pause can fire. -/
theorem tickE_neverSpoke (s : Engine) (t : Tick)
    (h1 : s.lastSpeechTime = none) (hst : s.state ≠ VCState.speaking)
    (h3 : speechCount (tickE s t.raw t.timestamp t.now).2 = 0) :
    (tickE s t.raw t.timestamp t.now).1.lastSpeechTime = none ∧
    (tickE s t.raw t.timestamp t.now).1.state ≠ VCState.speaking ∧
    pauseCount (tickE s t.raw t.timestamp t.now).2 = 0 ∧
    (tickE s t.raw t.timestamp t.now).1.segmentCount = s.segmentCount := by
  cases hrun : s.isRunning
  · rw [tickE_notRunning _ _ _ _ hrun]
    exact ⟨h1, hst, rfl, rfl⟩
  · by_cases hth : t.timestamp - s.lastAnalysisTime < s.config.analysisInterval
    · rw [tickE_throttled _ _ _ _ hth]
      exact ⟨h1, hst, rfl, rfl⟩
    · cases han : s.analyserNode
      · have heq : tickE s t.raw t.timestamp t.now
            = ({ s with lastAnalysisTime := t.timestamp }, []) := by
          unfold tickE; simp [hrun, hth, han]
        rw [heq]
        exact ⟨h1, hst, rfl, rfl⟩
      · cases htd : s.timeDomainData
        · have heq : tickE s t.raw t.timestamp t.now
              = ({ s with lastAnalysisTime := t.timestamp }, []) := by
            unfold tickE; simp [hrun, hth, han, htd]
          rw [heq]
          exact ⟨h1, hst, rfl, rfl⟩
        · rw [tickE_run _ _ _ _ hrun hth han htd] at h3 ⊢
          unfold tickBody at h3 ⊢
          dsimp only at h3 ⊢
          by_cases hcal : s.state = VCState.calibrating
          · rw [if_pos (by simpa using hcal)] at h3 ⊢
            split
            · exact ⟨by simp [h1], by simp, by simp, by simp⟩
            · exact ⟨by simp [h1], by simpa using hst, by simp, by simp⟩
          · rw [if_neg (by simpa using hcal)] at h3 ⊢
            have hs2 : (smoothEnergy { s with lastAnalysisTime := t.timestamp } t.raw).state
                ≠ VCState.speaking := by simpa using hst
            by_cases he : (smoothEnergy { s with lastAnalysisTime := t.timestamp } t.raw).speechThreshold
                < (smoothEnergy { s with lastAnalysisTime := t.timestamp } t.raw).smoothedEnergy
            · rw [processVAD_silentHigh _ _ _ hs2 he] at h3
              simp at h3
            · rw [processVAD_silentLow _ _ _ hs2 he] at h3 ⊢
              rcases checkPause_eq
                  (if (smoothEnergy { s with lastAnalysisTime := t.timestamp } t.raw).silenceStartTime = none
                   then { smoothEnergy { s with lastAnalysisTime := t.timestamp } t.raw with
                            silenceStartTime := some t.now }
                   else smoothEnergy { s with lastAnalysisTime := t.timestamp } t.raw) t.now
                with hcp | ⟨sst, hb1, hb2, hb3, hb4, hcp⟩
              · rw [hcp]
                refine ⟨?_, ?_, by simp, ?_⟩
                · split <;> simp [h1]
                · split <;> simpa using hst
                · split <;> simp
              · exfalso
                apply hb2
                revert hb2
                split <;> simp [h1]

/-- A run with no speech-start events on an engine that has never heard
speech fires no pause and leaves the segment counter alone. -/
theorem runTicks_neverSpoke (ticks : List Tick) (s : Engine)
    (h1 : s.lastSpeechTime = none) (hst : s.state ≠ VCState.speaking)
    (h3 : speechCount (runTicks s ticks).2 = 0) :
    pauseCount (runTicks s ticks).2 = 0 ∧
    (runTicks s ticks).1.segmentCount = s.segmentCount := by
  induction ticks generalizing s with
  | nil => exact ⟨rfl, rfl⟩
  | cons t rest ih =>
    simp only [runTicks, speechCount_append] at h3
    have hz1 : speechCount (tickE s t.raw t.timestamp t.now).2 = 0 := by omega
    have hz2 : speechCount (runTicks (tickE s t.raw t.timestamp t.now).1 rest).2 = 0 := by
      omega
    obtain ⟨k1, k2, k3, k4⟩ := tickE_neverSpoke s t h1 hst hz1
    obtain ⟨m1, m2⟩ := ih _ k1 k2 hz2
    constructor
    · simp only [runTicks, pauseCount_append, k3, m1]
    · simp only [runTicks]
      rw [m2, k4]

/-- C10: in every run of the main engine from a fresh start,
`onPauseDetected` never fires before the first `onSpeechStart`: as long
as no speech-start event has been emitted, arbitrarily long silence
produces no pause event and the segment counter stays at zero. -/
theorem c10_no_pause_before_speech (c : ConfigPatch) (now0 : ℚ) (ticks : List Tick)
    (h : speechCount (runTicks (startWithMediaStream (VoiceCapture.new c) now0) ticks).2 = 0) :
    pauseCount (runTicks (startWithMediaStream (VoiceCapture.new c) now0) ticks).2 = 0 ∧
    (runTicks (startWithMediaStream (VoiceCapture.new c) now0) ticks).1.segmentCount = 0 := by
  have h1 : (startWithMediaStream (VoiceCapture.new c) now0).lastSpeechTime = none := rfl
  have hstc : (startWithMediaStream (VoiceCapture.new c) now0).state = VCState.calibrating :=
    rfl
  have hst : (startWithMediaStream (VoiceCapture.new c) now0).state ≠ VCState.speaking := by
    intro hx
    rw [hstc] at hx
    exact VCState.noConfusion hx
  obtain ⟨p, q⟩ := runTicks_neverSpoke ticks _ h1 hst h
  exact ⟨p, q.trans rfl⟩

/-- C10 witness: the default engine, calibrated and then fed silence out
to a far-future clock value: no speech, hence no pause and a zero segment
count. -/
theorem c10_no_pause_before_speech_witness :
    speechCount (runTicks (startWithMediaStream (VoiceCapture.new {}) 0) longSilenceTicks).2 = 0 ∧
    (pauseCount (runTicks (startWithMediaStream (VoiceCapture.new {}) 0) longSilenceTicks).2 = 0 ∧
     (runTicks (startWithMediaStream (VoiceCapture.new {}) 0) longSilenceTicks).1.segmentCount = 0) :=
  ⟨by with_unfolding_all decide,
   c10_no_pause_before_speech {} 0 longSilenceTicks (by with_unfolding_all decide)⟩

end VoiceVAD
